import Mathlib

/-
Verification of the face-identity enrollment and verification core of the
student-portal repository (src/features.py): the encoder
`get_face_encoding_from_photo` and the verifier `recognize_face`, together
with the raw-float64 serialization contract for stored embeddings
(the `students.face_encoding` BLOB, read back with `np.frombuffer`).

Modelling conventions:
* A Python `bytes` value (and `None`) is a `List Nat` of byte values; Python
  falsiness (`not b`) holds exactly for `None`/`b""`, both modelled as `[]`.
* The face_recognition/PIL runtime is abstracted as a `FaceLib` oracle:
  `available` models the module flag FACE_RECOGNITION_AVAILABLE, and
  `encodingsOf` models `face_recognition.face_encodings(load_image_file(...))`
  on the raw photo bytes, with `.error e` standing for an exception raised by
  either library call (its message rendered by Python's f-string as `e`).
* float64 values are modelled by their 64-bit patterns (`Nat` below `2 ^ 64`)
  plus an exact IEEE 754 binary64 valuation into ℚ (`none` for NaN/±Inf);
  numpy vector arithmetic is modelled exactly over ℚ, so float rounding
  inside `np.linalg.norm` is idealised as exact arithmetic, which is the
  level at which the spec states the Euclidean-distance contract.
-/

/- A Python bytes value: a list of byte values. `None` and `b""` are both `[]`. -/
abbrev Bytes := List Nat

/- Exact value of an IEEE 754 binary64 bit pattern: `none` for NaN and ±Inf
(biased exponent 2047), otherwise the exact rational value, covering both
subnormals (biased exponent 0) and normals. -/
def f64val (w : Nat) : Option ℚ :=
  let sign : ℕ := w / 2 ^ 63 % 2
  let expo : ℕ := w / 2 ^ 52 % 2 ^ 11
  let frac : ℕ := w % 2 ^ 52
  if expo = 2047 then none
  else if expo = 0 then
    some ((if sign = 1 then (-1 : ℚ) else 1) * (frac : ℚ) / 2 ^ 1074)
  else
    some ((if sign = 1 then (-1 : ℚ) else 1) * ((2 ^ 52 + frac : ℕ) : ℚ) * 2 ^ expo / 2 ^ 1075)

/- The 8 bytes of a 64-bit word in native (little-endian) byte order, least
significant byte first — one float64 element of `ndarray.tobytes()`. -/
def bytesOfWord (w : Nat) : List Nat :=
  [w % 256, w / 2 ^ 8 % 256, w / 2 ^ 16 % 256, w / 2 ^ 24 % 256,
   w / 2 ^ 32 % 256, w / 2 ^ 40 % 256, w / 2 ^ 48 % 256, w / 2 ^ 56 % 256]

/- Reassemble a little-endian byte group into a 64-bit word. -/
def wordOfBytes (bs : List Nat) : Nat :=
  bs.foldr (fun b acc => acc * 256 + b) 0

/- Split a byte string into consecutive groups of 8 (callers guarantee the
length is a multiple of 8; a short trailing group is dropped). -/
def chunks8 : List Nat → List (List Nat)
  | b0 :: b1 :: b2 :: b3 :: b4 :: b5 :: b6 :: b7 :: rest =>
      [b0, b1, b2, b3, b4, b5, b6, b7] :: chunks8 rest
  | _ => []

/- `np.frombuffer(bs)` with the default dtype float64: raises ValueError when
the buffer length is not a multiple of the 8-byte element size, otherwise
reads consecutive 8-byte groups as native-endian 64-bit patterns. -/
def frombuffer (bs : Bytes) : Except String (List Nat) :=
  if bs.length % 8 = 0 then .ok ((chunks8 bs).map wordOfBytes)
  else .error "buffer size must be a multiple of element size"

/-- Modelled from the spec: the enrollment-side serializer is not under src/
(only the `students.face_encoding` BLOB column that stores its output is).
The spec fixes the format — "a flat buffer of 128 native double-precision
floating-point values, no header, no length field, no version tag", i.e.
`ndarray.tobytes()`: the 8 native-endian bytes of each 64-bit component,
concatenated in order. -/
def serialize_embedding (ws : List Nat) : Bytes :=
  ws.flatMap bytesOfWord

/- The face_recognition + image runtime, abstracted. `available` models the
module-level flag FACE_RECOGNITION_AVAILABLE; `encodingsOf` models
`face_recognition.face_encodings(face_recognition.load_image_file(BytesIO(b)))`
on photo bytes `b`: `.ok l` is the list of detected face encodings (their
exact float64 values), `.error e` an exception raised by either call. -/
structure FaceLib where
  available : Bool
  encodingsOf : Bytes → Except String (List (List ℚ))

/- src/features.py, `get_face_encoding_from_photo(photo_bytes)`:
loads an image from bytes, finds faces, and returns the first face encoding;
`none` plus a diagnostic when unavailable, no photo, no face, or an
exception (caught) occurred. -/
def get_face_encoding_from_photo (lib : FaceLib) (photo_bytes : Bytes) :
    Option (List ℚ) × String :=
  if lib.available = false ∨ photo_bytes = [] then
    (none, "Face recognition is not available or no photo provided.")
  else
    match lib.encodingsOf photo_bytes with
    | .ok (e :: _) => (some e, "Face encoding generated successfully.")
    | .ok [] => (none, "No face found in the uploaded photo.")
    | .error e => (none, "Error processing photo for face recognition: " ++ e)

/- Traverse: `some` of the list of values when every entry is `some`. -/
def allSome : List (Option ℚ) → Option (List ℚ)
  | [] => some []
  | none :: _ => none
  | some x :: rest => (allSome rest).map (fun xs => x :: xs)

/- numpy broadcast compatibility of shapes (1, k) and (m,). -/
def bcastOK (k m : Nat) : Bool :=
  k = m || k = 1 || m = 1

/- numpy broadcast subtraction of a length-k row against a length-m vector,
for broadcast-compatible shapes (k = m, or k = 1, or m = 1). -/
def bcastSub (a b : List ℚ) : List ℚ :=
  if a.length = b.length then List.zipWith (fun x y => x - y) a b
  else if a.length = 1 then b.map (fun y => a.headD 0 - y)
  else a.map (fun x => x - b.headD 0)

/- Sum of squares of a list of rationals. -/
def sqSum (l : List ℚ) : ℚ :=
  (l.map (fun x => x * x)).sum

/- Squared Euclidean distance of two equal-length vectors. -/
def l2distSq (a b : List ℚ) : ℚ :=
  sqSum (List.zipWith (fun x y => x - y) a b)

/- `face_recognition.compare_faces([known], current, tolerance)[0]`, i.e.
`np.linalg.norm(np.array([known]) - current, axis=1)[0] <= tolerance`.
`known` is the `np.frombuffer` output: 64-bit patterns valued by `f64val`,
possibly NaN/±Inf. Incompatible shapes raise a ValueError (numpy's message
also prints the two shapes; only the constant part is modelled). When every
stored component is finite the decision is ‖known − current‖ ≤ tolerance,
stated on squares (for 0 ≤ t, ‖d‖ ≤ t ↔ ‖d‖² ≤ t²); a NaN or ±Inf stored
component makes the distance NaN or +Inf, whose IEEE comparison with the
tolerance is false. -/
def compare_faces_first (known : List (Option ℚ)) (current : List ℚ) (tol : ℚ) :
    Except String Bool :=
  if bcastOK known.length current.length then
    match allSome known with
    | some ks => .ok (decide (sqSum (bcastSub ks current) ≤ tol * tol))
    | none => .ok false
  else .error "operands could not be broadcast together with shapes"

/- src/features.py, `recognize_face(known_face_encoding_bytes, current_photo_bytes)`:
compares a new photo against a known face encoding, failing closed with a
diagnostic on unavailability, missing input, undetected face, or any caught
exception (`np.frombuffer` and the comparison sit in one try/except whose
handler returns `(False, f"Error during face recognition: {e}")`). -/
def recognize_face (lib : FaceLib) (known_face_encoding_bytes current_photo_bytes : Bytes) :
    Bool × String :=
  if lib.available = false then
    (false, "Face recognition is not available.")
  else if known_face_encoding_bytes = [] then
    (false, "No registered face data found for this student.")
  else if current_photo_bytes = [] then
    (false, "No current photo provided for attendance.")
  else
    match frombuffer known_face_encoding_bytes with
    | .error e => (false, "Error during face recognition: " ++ e)
    | .ok words =>
      match get_face_encoding_from_photo lib current_photo_bytes with
      | (none, message) =>
          (false, "Could not detect face in current photo: " ++ message)
      | (some current, _) =>
        match compare_faces_first (words.map f64val) current (1 / 2) with
        | .error e => (false, "Error during face recognition: " ++ e)
        | .ok b =>
          if b then (true, "Face recognized successfully.")
          else (false, "Face not recognized. Please try again.")

/- Concrete fixtures used by witnesses and counterexamples. -/

/- The 128-dimensional zero embedding. -/
def zeros128 : List ℚ := List.replicate 128 0

/- The 128-dimensional all-ones embedding. -/
def ones128 : List ℚ := List.replicate 128 1

/- An available runtime that detects one face with the zero embedding. -/
def libZeroFace : FaceLib := ⟨true, fun _ => .ok [zeros128]⟩

/- An available runtime that detects one face with the all-ones embedding. -/
def libOnesFace : FaceLib := ⟨true, fun _ => .ok [ones128]⟩

/- An available runtime whose image pipeline raises an exception "boom". -/
def libRaise : FaceLib := ⟨true, fun _ => .error "boom"⟩

/- An available runtime that detects no face. -/
def libNoFace : FaceLib := ⟨true, fun _ => .ok []⟩

/- An available runtime that detects two faces, with distinct encodings. -/
def libTwoFaces : FaceLib := ⟨true, fun _ => .ok [[1], [2]]⟩

/- A runtime in which the face_recognition import failed. -/
def libUnavailable : FaceLib := ⟨false, fun _ => .ok []⟩

/- The serialized 128-dimensional zero embedding: 1024 zero bytes. -/
def kbZeros : Bytes := List.replicate 1024 0

/- 8 zero bytes: deserializes to the 1-dimensional vector [0.0]. -/
def kb8 : Bytes := List.replicate 8 0

instance {ε α : Type} [DecidableEq ε] [DecidableEq α] : DecidableEq (Except ε α) :=
  fun a b =>
    match a, b with
    | .ok x, .ok y => decidable_of_iff (x = y) (by simp)
    | .error x, .error y => decidable_of_iff (x = y) (by simp)
    | .ok _, .error _ => .isFalse (by simp)
    | .error _, .ok _ => .isFalse (by simp)

set_option maxRecDepth 8000

theorem f64val_zero : f64val 0 = some 0 := by norm_num [f64val]

theorem map_f64val_zeros :
    (List.replicate 128 0).map f64val = zeros128.map some := by
  simp [List.map_replicate, f64val_zero, zeros128]

theorem allSome_map_some (l : List ℚ) : allSome (l.map some) = some l := by
  induction l with
  | nil => rfl
  | cons x xs ih => simp [allSome, ih]

theorem zipWith_sub_replicate (a b : ℚ) (n : Nat) :
    List.zipWith (fun x y => x - y) (List.replicate n a) (List.replicate n b) =
      List.replicate n (a - b) := by
  induction n with
  | zero => rfl
  | succ n ih => simp [List.replicate_succ, ih]

theorem sqSum_replicate (n : Nat) (a : ℚ) :
    sqSum (List.replicate n a) = n * (a * a) := by
  simp [sqSum, List.map_replicate, List.sum_replicate, nsmul_eq_mul]

theorem l2distSq_zeros_zeros : l2distSq zeros128 zeros128 = 0 := by
  rw [l2distSq, zeros128, zipWith_sub_replicate, sqSum_replicate]; norm_num

theorem l2distSq_zeros_ones : l2distSq zeros128 ones128 = 128 := by
  rw [l2distSq, zeros128, ones128, zipWith_sub_replicate, sqSum_replicate]; norm_num

theorem recognize_face_eval (lib : FaceLib) (kb cb : Bytes) (ws : List Nat)
    (vs e : List ℚ) (rest : List (List ℚ))
    (hav : lib.available = true) (hkb : kb ≠ []) (hcb : cb ≠ [])
    (hde : frombuffer kb = .ok ws) (hfin : ws.map f64val = vs.map some)
    (henc : lib.encodingsOf cb = .ok (e :: rest)) (hlen : vs.length = e.length) :
    recognize_face lib kb cb =
      if l2distSq vs e ≤ 1 / 4 then (true, "Face recognized successfully.")
      else (false, "Face not recognized. Please try again.") := by
  have h14 : (1 : ℚ) / 2 * (1 / 2) = 1 / 4 := by norm_num
  by_cases hd : l2distSq vs e ≤ 1 / 4 <;>
    simp [recognize_face, get_face_encoding_from_photo, compare_faces_first,
      hav, hkb, hcb, hde, hfin, henc, allSome_map_some, bcastOK, bcastSub,
      List.length_map, hlen, h14, l2distSq, hd] <;>
    norm_num

theorem wordOfBytes_bytesOfWord (w : Nat) (h : w < 2 ^ 64) :
    wordOfBytes (bytesOfWord w) = w := by
  simp only [wordOfBytes, bytesOfWord, List.foldr]
  omega

theorem chunks8_flatMap_bytesOfWord (ws : List Nat) :
    chunks8 (ws.flatMap bytesOfWord) = ws.map bytesOfWord := by
  induction ws with
  | nil => rfl
  | cons w ws ih =>
      have h : (w :: ws).flatMap bytesOfWord = bytesOfWord w ++ ws.flatMap bytesOfWord := rfl
      rw [h]
      simp only [bytesOfWord, List.cons_append, List.nil_append, List.map_cons, chunks8]
      rw [show ([] : List ℕ).append (ws.flatMap bytesOfWord) = ws.flatMap bytesOfWord from rfl, ih]

theorem length_flatMap_bytesOfWord (ws : List Nat) :
    (ws.flatMap bytesOfWord).length = 8 * ws.length := by
  induction ws with
  | nil => rfl
  | cons w ws ih =>
      simp [List.flatMap_cons, bytesOfWord, ih]
      ring

/-- C1: with the capability available, both inputs non-empty, the stored bytes
deserializing to an all-finite vector of the same dimension as the embedding
freshly computed from the current photo, `recognize_face` declares a match
exactly when the Euclidean distance between the two vectors is at most the
fixed tolerance 0.5 (inclusive), returning `(true, ...)` on a match and
`(false, ...)` otherwise. -/
theorem C1_match_iff_distance_le_tolerance (lib : FaceLib) (kb cb : Bytes)
    (ws : List Nat) (vs e : List ℚ) (rest : List (List ℚ))
    (hav : lib.available = true) (hkb : kb ≠ []) (hcb : cb ≠ [])
    (hde : frombuffer kb = .ok ws) (hfin : ws.map f64val = vs.map some)
    (henc : lib.encodingsOf cb = .ok (e :: rest)) (hlen : vs.length = e.length) :
    (Real.sqrt ((l2distSq vs e : ℚ) : ℝ) ≤ 1 / 2 →
       recognize_face lib kb cb = (true, "Face recognized successfully.")) ∧
    (¬ Real.sqrt ((l2distSq vs e : ℚ) : ℝ) ≤ 1 / 2 →
       recognize_face lib kb cb = (false, "Face not recognized. Please try again.")) := by
  have key : Real.sqrt ((l2distSq vs e : ℚ) : ℝ) ≤ 1 / 2 ↔ l2distSq vs e ≤ 1 / 4 := by
    rw [Real.sqrt_le_iff]
    constructor
    · intro h
      have h2 := h.2
      rw [show ((1 : ℝ) / 2) ^ 2 = ((1 / 4 : ℚ) : ℝ) by norm_num] at h2
      exact_mod_cast h2
    · intro h
      refine ⟨by norm_num, ?_⟩
      rw [show ((1 : ℝ) / 2) ^ 2 = ((1 / 4 : ℚ) : ℝ) by norm_num]
      exact_mod_cast h
  rw [recognize_face_eval lib kb cb ws vs e rest hav hkb hcb hde hfin henc hlen]
  constructor
  · intro h
    rw [if_pos (key.mp h)]
  · intro h
    rw [if_neg (fun hc => h (key.mpr hc))]

/-- C1 witness: the two spec scenarios. Stored zero embedding (1024 zero
bytes) against a detected zero embedding: distance 0, match; stored zero
embedding against a detected all-1.0 embedding: distance √128, no match. -/
theorem C1_witness :
    recognize_face libZeroFace kbZeros [1] = (true, "Face recognized successfully.") ∧
    recognize_face libOnesFace kbZeros [1] = (false, "Face not recognized. Please try again.") := by
  constructor
  · refine (C1_match_iff_distance_le_tolerance libZeroFace kbZeros [1]
      (List.replicate 128 0) zeros128 zeros128 [] rfl (by decide) (by decide)
      (by decide) map_f64val_zeros rfl rfl).1 ?_
    rw [l2distSq_zeros_zeros]
    norm_num [Real.sqrt_zero]
  · refine (C1_match_iff_distance_le_tolerance libOnesFace kbZeros [1]
      (List.replicate 128 0) zeros128 ones128 [] rfl (by decide) (by decide)
      (by decide) map_f64val_zeros rfl (by simp [zeros128, ones128])).2 ?_
    rw [l2distSq_zeros_ones]
    rw [show ((128 : ℚ) : ℝ) = (128 : ℝ) by norm_num]
    intro h
    nlinarith [Real.sq_sqrt (show (0 : ℝ) ≤ 128 by norm_num), Real.sqrt_nonneg (128 : ℝ)]

/-- C2: `recognize_face` checks its preconditions in order, short-circuiting:
capability unavailable, then absent/empty stored embedding, then absent/empty
current photo, each returning `false` with its diagnostic; and a student with
no stored embedding is never matched (fails closed, whatever the rest of the
state). -/
theorem C2_precondition_order_fail_closed (lib : FaceLib) (kb cb : Bytes) :
    (lib.available = false →
       recognize_face lib kb cb = (false, "Face recognition is not available.")) ∧
    (lib.available = true → kb = [] →
       recognize_face lib kb cb = (false, "No registered face data found for this student.")) ∧
    (lib.available = true → kb ≠ [] → cb = [] →
       recognize_face lib kb cb = (false, "No current photo provided for attendance.")) ∧
    (kb = [] → (recognize_face lib kb cb).1 = false) := by
  refine ⟨fun h => by simp [recognize_face, h], fun h hk => by simp [recognize_face, h, hk],
    fun h hk hc => by simp [recognize_face, h, hk, hc], fun hk => ?_⟩
  cases h : lib.available
  · simp [recognize_face, h]
  · simp [recognize_face, h, hk]

/-- C2 witness: each precondition exercised at a concrete input. -/
theorem C2_witness :
    recognize_face libUnavailable [1] [1] = (false, "Face recognition is not available.") ∧
    recognize_face libTwoFaces [] [1] = (false, "No registered face data found for this student.") ∧
    recognize_face libTwoFaces [1] [] = (false, "No current photo provided for attendance.") ∧
    (recognize_face libTwoFaces [] [2]).1 = false := by
  exact ⟨(C2_precondition_order_fail_closed libUnavailable [1] [1]).1 rfl,
    (C2_precondition_order_fail_closed libTwoFaces [] [1]).2.1 rfl rfl,
    (C2_precondition_order_fail_closed libTwoFaces [1] []).2.2.1 rfl (by decide) rfl,
    (C2_precondition_order_fail_closed libTwoFaces [] [2]).2.2.2 rfl⟩

/-- C3 counterexample: an exception raised while encoding the current photo is
caught, but the returned diagnostic is "Could not detect face in current
photo: Error processing photo for face recognition: boom" — not a string of
the claimed form "Error during face recognition: <detail>" (its first 31
characters differ from that claimed constant opening). -/
theorem C3_counterexample_encoder_exception_message :
    recognize_face libRaise kb8 [1] =
      (false,
        "Could not detect face in current photo: Error processing photo for face recognition: boom") ∧
    (recognize_face libRaise kb8 [1]).2.data.take 31 ≠
      ("Error during face recognition: ").data := by
  constructor <;> decide

/-- C3 amended: `recognize_face` never raises — its result is always a `false`
decision plus a diagnostic except on the success path; an exception during
deserialization is caught and returned as
`(false, "Error during face recognition: <detail>")`, while an exception
during encoding of the current photo is caught inside the encoder and
surfaces as `(false, "Could not detect face in current photo: Error
processing photo for face recognition: <detail>")`. -/
theorem C3_amended_never_raises (lib : FaceLib) (kb cb : Bytes) :
    ((recognize_face lib kb cb).1 = false ∨
       recognize_face lib kb cb = (true, "Face recognized successfully.")) ∧
    (∀ e, lib.available = true → kb ≠ [] → cb ≠ [] → frombuffer kb = .error e →
       recognize_face lib kb cb = (false, "Error during face recognition: " ++ e)) ∧
    (∀ e ws, lib.available = true → kb ≠ [] → cb ≠ [] → frombuffer kb = .ok ws →
       lib.encodingsOf cb = .error e →
       recognize_face lib kb cb =
         (false, "Could not detect face in current photo: " ++
           ("Error processing photo for face recognition: " ++ e))) := by
  refine ⟨?_, fun e hav hk hc hde => by simp [recognize_face, hav, hk, hc, hde],
    fun e ws hav hk hc hde henc => by
      simp [recognize_face, get_face_encoding_from_photo, hav, hk, hc, hde, henc]⟩
  unfold recognize_face
  repeat' split
  all_goals simp

/-- C3 witness: the two caught-exception paths at concrete inputs — a
deserialization failure (1 byte) and an encoder exception ("boom"). -/
theorem C3_witness :
    recognize_face libZeroFace [1] [1] =
      (false, "Error during face recognition: " ++
        "buffer size must be a multiple of element size") ∧
    recognize_face libRaise kb8 [1] =
      (false, "Could not detect face in current photo: " ++
        ("Error processing photo for face recognition: " ++ "boom")) := by
  exact ⟨(C3_amended_never_raises libZeroFace [1] [1]).2.1
      "buffer size must be a multiple of element size" rfl (by decide) (by decide) (by decide),
    (C3_amended_never_raises libRaise kb8 [1]).2.2 "boom" [0] rfl (by decide) (by decide)
      (by decide) rfl⟩

/-- C4: whenever the library detects one or more faces in the photo, the
encoder returns exactly the first detection's embedding (the head of the
library's list), never the whole list. -/
theorem C4_returns_first_detection (lib : FaceLib) (pb : Bytes) (e : List ℚ)
    (rest : List (List ℚ)) (hav : lib.available = true) (hpb : pb ≠ [])
    (henc : lib.encodingsOf pb = .ok (e :: rest)) :
    get_face_encoding_from_photo lib pb = (some e, "Face encoding generated successfully.") := by
  simp [get_face_encoding_from_photo, hav, hpb, henc]

/-- C4 witness: a photo with two detected faces yields only the first
embedding. -/
theorem C4_witness :
    get_face_encoding_from_photo libTwoFaces [1] =
      (some [1], "Face encoding generated successfully.") :=
  C4_returns_first_detection libTwoFaces [1] [1] [[2]] rfl (by decide) rfl

/-- C5: the encoder returns absent with the "No face found" diagnostic when
zero faces are detected, and never raises on malformed image bytes: any
decode exception is caught and converted into absent plus a diagnostic
describing the failure. -/
theorem C5_zero_faces_and_decode_failure (lib : FaceLib) (pb : Bytes) :
    (lib.available = true → pb ≠ [] → lib.encodingsOf pb = .ok [] →
       get_face_encoding_from_photo lib pb = (none, "No face found in the uploaded photo.")) ∧
    (∀ m, lib.available = true → pb ≠ [] → lib.encodingsOf pb = .error m →
       get_face_encoding_from_photo lib pb =
         (none, "Error processing photo for face recognition: " ++ m)) := by
  exact ⟨fun hav hpb h => by simp [get_face_encoding_from_photo, hav, hpb, h],
    fun m hav hpb h => by simp [get_face_encoding_from_photo, hav, hpb, h]⟩

/-- C5 witness: a zero-face photo and a photo whose decoding raises, at
concrete inputs. -/
theorem C5_witness :
    get_face_encoding_from_photo libNoFace [1] = (none, "No face found in the uploaded photo.") ∧
    get_face_encoding_from_photo libRaise [1] =
      (none, "Error processing photo for face recognition: " ++ "boom") := by
  exact ⟨(C5_zero_faces_and_decode_failure libNoFace [1]).1 rfl (by decide) rfl,
    (C5_zero_faces_and_decode_failure libRaise [1]).2 "boom" rfl (by decide) rfl⟩

/-- C6: round-trip — serializing a 128-dimensional float64 embedding to the
flat raw binary format and deserializing it with `np.frombuffer` yields the
original vector, bit-identically (hence equal within any epsilon). -/
theorem C6_serialize_roundtrip (ws : List Nat) (hdim : ws.length = 128)
    (hrange : ∀ w ∈ ws, w < 2 ^ 64) :
    frombuffer (serialize_embedding ws) = .ok ws := by
  unfold frombuffer serialize_embedding
  rw [if_pos]
  · rw [chunks8_flatMap_bytesOfWord, List.map_map]
    have : ∀ l : List Nat, (∀ w ∈ l, w < 2 ^ 64) →
        l.map (wordOfBytes ∘ bytesOfWord) = l := by
      intro l hl
      induction l with
      | nil => rfl
      | cons x xs ih =>
          simp only [List.map_cons, Function.comp_apply,
            wordOfBytes_bytesOfWord x (hl x (by simp))]
          rw [ih (fun w hw => hl w (by simp [hw]))]
    rw [this ws hrange]
  · rw [length_flatMap_bytesOfWord]
    omega

/-- C6 witness: the zero embedding round-trips through 1024 bytes. -/
theorem C6_witness :
    frombuffer (serialize_embedding (List.replicate 128 0)) = .ok (List.replicate 128 0) :=
  C6_serialize_roundtrip (List.replicate 128 0) (by decide) (by decide)

/-- C7: with an empty stored embedding the verifier's result is `false` and
identical for every current-photo value and every encoder behaviour (the
encoder is never consulted); with an empty current photo and a non-empty
stored embedding the result is `false` and identical for every stored value
(no deserialization is attempted). -/
theorem C7_missing_input_independence (a : Bool)
    (enc enc' : Bytes → Except String (List (List ℚ))) (kb kb' cb cb' : Bytes) :
    (recognize_face ⟨a, enc⟩ [] cb = recognize_face ⟨a, enc'⟩ [] cb' ∧
       (recognize_face ⟨a, enc⟩ [] cb).1 = false) ∧
    (kb ≠ [] → kb' ≠ [] →
       recognize_face ⟨a, enc⟩ kb [] = recognize_face ⟨a, enc⟩ kb' [] ∧
       (recognize_face ⟨a, enc⟩ kb []).1 = false) := by
  constructor
  · cases a <;> simp [recognize_face]
  · intro hk hk'
    cases a <;> simp [recognize_face, hk, hk']

/-- C7 witness: concrete instantiation with differing encoders, photos and
stored values. -/
theorem C7_witness :
    (recognize_face ⟨true, fun _ => .ok [zeros128]⟩ [] [1] =
       recognize_face ⟨true, fun _ => .error "boom"⟩ [] [2] ∧
     (recognize_face ⟨true, fun _ => .ok [zeros128]⟩ [] [1]).1 = false) ∧
    (recognize_face ⟨true, fun _ => .ok [zeros128]⟩ [1] [] =
       recognize_face ⟨true, fun _ => .ok [zeros128]⟩ [2] [] ∧
     (recognize_face ⟨true, fun _ => .ok [zeros128]⟩ [1] []).1 = false) := by
  exact ⟨(C7_missing_input_independence true (fun _ => .ok [zeros128])
      (fun _ => .error "boom") [1] [2] [1] [2]).1,
    (C7_missing_input_independence true (fun _ => .ok [zeros128])
      (fun _ => .ok [zeros128]) [1] [2] [] []).2 (by decide) (by decide)⟩

/-- C8 counterexample: with the capability available, the absent-stored-data
and absent-photo results carry the code's diagnostics "No registered face
data found for this student." and "No current photo provided for
attendance." — not the byte-exact strings quoted by the claim (which differ
in capitalisation and the final period). -/
theorem C8_counterexample_exact_strings :
    recognize_face libTwoFaces [] [1] =
      (false, "No registered face data found for this student.") ∧
    (recognize_face libTwoFaces [] [1]).2 ≠ "no registered face data found for this student" ∧
    recognize_face libTwoFaces kb8 [] =
      (false, "No current photo provided for attendance.") ∧
    (recognize_face libTwoFaces kb8 []).2 ≠ "no current photo provided for attendance" := by
  refine ⟨by decide, by decide, by decide, by decide⟩

/-- C8 amended: when the capability is available, `recognize_face` with an
absent stored embedding returns exactly `(false, "No registered face data
found for this student.")`, and with an absent current photo returns exactly
`(false, "No current photo provided for attendance.")`. -/
theorem C8_amended_exact_diagnostics (lib : FaceLib) (kb cb : Bytes)
    (hav : lib.available = true) :
    (cb ≠ [] → recognize_face lib [] cb =
       (false, "No registered face data found for this student.")) ∧
    (kb ≠ [] → recognize_face lib kb [] =
       (false, "No current photo provided for attendance.")) := by
  exact ⟨fun hc => by simp [recognize_face, hav], fun hk => by simp [recognize_face, hav, hk]⟩

/-- C8 witness: both amended scenarios at concrete inputs. -/
theorem C8_witness :
    recognize_face libTwoFaces [] [1] = (false, "No registered face data found for this student.") ∧
    recognize_face libTwoFaces [1] [] = (false, "No current photo provided for attendance.") := by
  exact ⟨(C8_amended_exact_diagnostics libTwoFaces [1] [1] rfl).1 (by decide),
    (C8_amended_exact_diagnostics libTwoFaces [1] [1] rfl).2 (by decide)⟩

/-- C9 counterexample: 8 stored bytes have length a multiple of 8 but
deserialize to the 1-dimensional vector [0.0], whose dimensionality differs
from the 128-dimensional current embedding; instead of a caught comparison
failure returned as `(false, "Error during face recognition: <detail>")`,
numpy broadcasts shape (1,1) against (128,) and the verifier declares a
match. -/
theorem C9_counterexample_dim1_broadcast :
    recognize_face libZeroFace kb8 [1] = (true, "Face recognized successfully.") ∧
    kb8.length % 8 = 0 ∧ frombuffer kb8 = .ok [0] := by
  have hcmp : compare_faces_first [some 0] zeros128 (2⁻¹ : ℚ) = .ok true := by
    simp only [compare_faces_first, allSome, Option.map_some]
    rw [if_pos]
    · simp only [bcastSub, zeros128]
      norm_num [List.map_replicate, sqSum_replicate]
    · simp [bcastOK, zeros128]
  refine ⟨?_, by decide, by decide⟩
  have hde : frombuffer kb8 = .ok [0] := by decide
  have hk : kb8 ≠ [] := by decide
  simp [recognize_face, get_face_encoding_from_photo, libZeroFace, hk, hde, f64val_zero, hcmp]

/-- C9 amended: malformed stored data fails closed except for dimension 1:
stored bytes whose length is not a multiple of 8, or which deserialize to a
vector whose dimensionality is neither 128 nor 1, produce a caught error
returned as `(false, "Error during face recognition: <detail>")`; a
1-dimensional stored vector instead broadcasts silently against the
128-dimensional embedding and the comparison proceeds. -/
theorem C9_amended_malformed_fails_closed (lib : FaceLib) (kb cb : Bytes)
    (e : List ℚ) (rest : List (List ℚ))
    (hav : lib.available = true) (hkb : kb ≠ []) (hcb : cb ≠ [])
    (henc : lib.encodingsOf cb = .ok (e :: rest)) (hdim : e.length = 128) :
    (kb.length % 8 ≠ 0 →
       recognize_face lib kb cb =
         (false, "Error during face recognition: " ++
           "buffer size must be a multiple of element size")) ∧
    (∀ ws, frombuffer kb = .ok ws → ws.length ≠ 128 → ws.length ≠ 1 →
       recognize_face lib kb cb =
         (false, "Error during face recognition: " ++
           "operands could not be broadcast together with shapes")) := by
  constructor
  · intro h
    have hde : frombuffer kb = .error "buffer size must be a multiple of element size" := by
      simp [frombuffer, h]
    simp [recognize_face, hav, hkb, hcb, hde]
  · intro ws hde h128 h1
    have hcmp : compare_faces_first (ws.map f64val) e (2⁻¹ : ℚ) =
        .error "operands could not be broadcast together with shapes" := by
      simp [compare_faces_first, bcastOK, List.length_map, hdim, h128, h1]
    simp [recognize_face, get_face_encoding_from_photo, hav, hkb, hcb, hde, henc, hcmp]

/-- C9 witness: a 1-byte stored blob (length not a multiple of 8) and a
16-byte blob (dimension 2, no broadcast) both fail closed with the caught
error diagnostic. -/
theorem C9_witness :
    recognize_face libZeroFace [1] [1] =
      (false, "Error during face recognition: " ++
        "buffer size must be a multiple of element size") ∧
    recognize_face libZeroFace (List.replicate 16 0) [1] =
      (false, "Error during face recognition: " ++
        "operands could not be broadcast together with shapes") := by
  exact ⟨(C9_amended_malformed_fails_closed libZeroFace [1] [1] zeros128 [] rfl (by decide)
      (by decide) rfl (by simp [zeros128])).1 (by decide),
    (C9_amended_malformed_fails_closed libZeroFace (List.replicate 16 0) [1] zeros128 [] rfl
      (by decide) (by decide) rfl (by simp [zeros128])).2 [0, 0] (by decide) (by decide)
      (by decide)⟩

/-- C10: the encoder on empty/absent photo bytes returns absent immediately
with the combined diagnostic "Face recognition is not available or no photo
provided." without consulting the image pipeline, and an unavailable
capability produces the identical result, so the two cases are
indistinguishable from the encoder's result alone. -/
theorem C10_empty_photo_unavailable_diagnostic (a : Bool)
    (enc enc' : Bytes → Except String (List (List ℚ))) (pb : Bytes) :
    (get_face_encoding_from_photo ⟨a, enc⟩ [] =
       (none, "Face recognition is not available or no photo provided.") ∧
     get_face_encoding_from_photo ⟨a, enc⟩ [] = get_face_encoding_from_photo ⟨a, enc'⟩ []) ∧
    (a = false →
       get_face_encoding_from_photo ⟨a, enc⟩ pb =
         (none, "Face recognition is not available or no photo provided.")) := by
  refine ⟨⟨by simp [get_face_encoding_from_photo], by simp [get_face_encoding_from_photo]⟩,
    fun h => by simp [get_face_encoding_from_photo, h]⟩

/-- C10 witness: empty photo under an available runtime and a non-empty photo
under an unavailable runtime produce the same diagnostic. -/
theorem C10_witness :
    (get_face_encoding_from_photo libTwoFaces [] =
       (none, "Face recognition is not available or no photo provided.") ∧
     get_face_encoding_from_photo libTwoFaces [] = get_face_encoding_from_photo libNoFace []) ∧
    get_face_encoding_from_photo libUnavailable [1] =
      (none, "Face recognition is not available or no photo provided.") := by
  exact ⟨(C10_empty_photo_unavailable_diagnostic true libTwoFaces.encodingsOf
      libNoFace.encodingsOf [1]).1,
    (C10_empty_photo_unavailable_diagnostic false libUnavailable.encodingsOf
      libUnavailable.encodingsOf [1]).2 rfl⟩
